import Mathlib

/-!
Shallow embedding of the baresip media-stream core (stream.c, audio.c,
rtpkeep.c): RTP loss classification, the receive dispatch path, the send
gate, the keepalive state machine and the audio encode/timestamp path.
Machine integers are modelled as `Nat` with explicit `% 2^w` where the C
code relies on unsigned wraparound.
-/

namespace Baresip

/-- The value `(uint32_t)-1`, the "no sequence number seen yet" marker in
`struct stream::pseq`. -/
def UINT32_UNSET : Nat := 4294967295

/-- errno value `ENOENT` as used by `send_keepalive` / `pt_handler`. -/
def ENOENT : Int := 2

/-- errno value `ENOSYS` returned by `send_keepalive` for an unknown method. -/
def ENOSYS : Int := 38

/-- Function `lostcalc` (stream.c): stateful loss classification.  The state is the
last admitted sequence number `pseq` (a `uint32_t`, `UINT32_UNSET` when
unset); `seq` is the incoming 16-bit sequence number.  Returns the new
`pseq` together with the C return value (`-1` duplicate, `-2` backward
wrap, otherwise the loss count).  `delta` is the C expression
`(uint16_t)(seq - s->pseq)`. -/
def lostcalc (pseq : Nat) (seq : Nat) : Nat × Int :=
  let delta : Nat := ((seq + 4294967296 - pseq % 4294967296) % 4294967296) % 65536
  if pseq = UINT32_UNSET then
    (seq, 0)
  else if delta = 0 then
    (pseq, -1)
  else if delta < 3000 then
    (seq, (delta : Int) - 1)
  else if delta < 0xff9c then
    (seq, 0)
  else
    (pseq, -2)

/-- The unsigned 16-bit delta `seq - last` for two in-range sequence
numbers, as the spec describes it. -/
def delta16 (last seq : Nat) : Nat := (seq + 65536 - last) % 65536

theorem lostcalc_delta_eq (last seq : Nat) (hl : last < 65536) (hs : seq < 65536) :
    ((seq + 4294967296 - last % 4294967296) % 4294967296) % 65536 = delta16 last seq := by
  unfold delta16
  omega

/-- C1: with a previously admitted 16-bit `last`, classifying `seq` whose
unsigned 16-bit delta `d = seq - last` lies in `[1, 65435]` stores `seq`
as the new sequence number, and reports loss `d - 1` for `d` in
`[1, 2999]` and loss `0` for `d` in `[3000, 65435]`. -/
theorem lostcalc_forward_updates_and_counts (last seq : Nat)
    (hl : last < 65536) (hs : seq < 65536)
    (h1 : 1 ≤ delta16 last seq) (h2 : delta16 last seq ≤ 65435) :
    (lostcalc last seq).1 = seq ∧
    (lostcalc last seq).2 =
      (if delta16 last seq ≤ 2999 then (delta16 last seq : Int) - 1 else 0) := by
  have hd := lostcalc_delta_eq last seq hl hs
  unfold lostcalc
  rw [hd]
  have hunset : ¬ (last = UINT32_UNSET) := by
    unfold UINT32_UNSET; omega
  simp only [hunset, if_false]
  split_ifs <;> simp_all <;> omega

/-- Witness for C1 at `last = 10`, `seq = 14` (delta 4, loss 3). -/
theorem lostcalc_forward_updates_and_counts_witness :
    (lostcalc 10 14).1 = 14 ∧
    (lostcalc 10 14).2 = (if delta16 10 14 ≤ 2999 then (delta16 10 14 : Int) - 1 else 0) :=
  lostcalc_forward_updates_and_counts 10 14 (by decide) (by decide) (by decide) (by decide)

/-- Duplicate (`delta = 0`) and backward-wrap (`delta ≥ 0xff9c`) inputs leave
`pseq` untouched and return a negative ("ignore") code. -/
theorem lostcalc_ignore (last seq : Nat) (hl : last < 65536) (hs : seq < 65536)
    (h : delta16 last seq = 0 ∨ 65436 ≤ delta16 last seq) :
    (lostcalc last seq).1 = last ∧ (lostcalc last seq).2 < 0 := by
  have hd := lostcalc_delta_eq last seq hl hs
  unfold lostcalc
  rw [hd]
  have hunset : ¬ (last = UINT32_UNSET) := by
    unfold UINT32_UNSET; omega
  simp only [hunset, if_false]
  unfold delta16 at h ⊢
  split_ifs <;> simp_all <;> omega

/-! Section: SDP media and stream state. -/

/-- Value `SDP_INACTIVE` of `enum sdp_dir` (libre). -/
def SDP_INACTIVE : Nat := 0

/-- Value `SDP_RECVONLY` of `enum sdp_dir` (libre). -/
def SDP_RECVONLY : Nat := 1

/-- Value `SDP_SENDONLY` of `enum sdp_dir` (libre). -/
def SDP_SENDONLY : Nat := 2

/-- Value `SDP_SENDRECV` of `enum sdp_dir` (libre), bitwise or of the two. -/
def SDP_SENDRECV : Nat := 3

/-- One entry of the negotiated SDP format table: a payload type together
with opaque identifiers for the codec (`lc->data`) and its parameters
(`lc->params`). -/
structure SdpFormat where
  pt : Nat
  codec : Nat
  params : Nat
deriving Repr, DecidableEq

/-- The slice of an `sdp_media` object that the stream core reads: local
direction (`sdp_media_ldir`), negotiated direction (`sdp_media_dir`),
whether the remote address is set (`sa_isset(sdp_media_raddr(m), SA_ALL)`),
and the negotiated format table queried by `sdp_media_format` /
`sdp_media_lformat`. -/
structure SdpMedia where
  ldir : Nat
  dir : Nat
  raddr_set : Bool
  fmts : List SdpFormat
deriving Repr, DecidableEq

/-- Function `sdp_media_lformat`: look up a format table entry by payload type. -/
def sdp_media_lformat (m : SdpMedia) (pt : Nat) : Option SdpFormat :=
  m.fmts.find? (fun f => f.pt == pt)

/-- RTP keepalive state (`struct rtpkeep`, rtpkeep.c): configured method,
last outgoing RTP timestamp and the per-period activity flag. -/
structure Rtpkeep where
  method : String
  ts : Nat
  flag : Bool
deriving Repr, DecidableEq

/-- Stream tx/rx statistics counters (`struct stream::stats`). -/
structure StreamStats where
  n_tx : Nat
  n_rx : Nat
  b_tx : Nat
  b_rx : Nat
deriving Repr, DecidableEq

/-- The part of `struct stream` (stream.c) the verified operations touch.
`jbuf = true` models a non-NULL jitter-buffer handle; `rtpkeep = none`
models a NULL keepalive pointer. -/
structure StreamSt where
  sdp : SdpMedia
  rtpkeep : Option Rtpkeep
  ssrc_rx : Nat
  pseq : Nat
  jbuf : Bool
  jbuf_started : Bool
  pt_enc : Int
  stats : StreamStats
deriving Repr, DecidableEq

/-- A concrete RTP packet header as seen by `rtp_recv`. -/
structure RtpHeader where
  ssrc : Nat
  seq : Nat
  ts : Nat
  pt : Nat
  m : Bool
deriving Repr, DecidableEq

/-- The zeroed header `rtp_recv` synthesizes when `jbuf_get` fails after
playout has started (`memset(&hdr2, 0, sizeof(hdr2))`). -/
def zeroHdr : RtpHeader := ⟨0, 0, 0, 0, false⟩

/-- Observable side effects of one `rtp_recv` invocation, in program
order: jitter-buffer flush, jitter-buffer put, the null-payload loss
notification `s->rtph(hdr, NULL, s->arg)`, and the real handler delivery. -/
inductive RecvAction where
  | jbufFlush
  | jbufPut (seq : Nat)
  | handlerLoss (seq : Nat)
  | handlerDeliver (seq : Nat) (payload : Bool)
deriving Repr, DecidableEq

/-- Function `rtp_recv` (stream.c): the RTP receive path.  `len` is
`mbuf_get_left(mb)` of the incoming packet; `jget` is the outcome of the
external `jbuf_get` collaborator call (`some hdr2` on success, `none` on
failure); the returned list is the program-ordered trace of observable
actions. -/
def rtp_recv (s : StreamSt) (jget : Option RtpHeader) (hdr : RtpHeader) (len : Nat) :
    StreamSt × List RecvAction :=
  if len = 0 then (s, [])
  else if s.sdp.ldir &&& SDP_RECVONLY = 0 then (s, [])
  else
    let s1 := { s with stats := { s.stats with n_rx := s.stats.n_rx + 1,
                                               b_rx := s.stats.b_rx + len } }
    let flush : Bool := hdr.ssrc != s1.ssrc_rx && s1.ssrc_rx != 0
    let s2 := { s1 with ssrc_rx := if hdr.ssrc ≠ s1.ssrc_rx then hdr.ssrc else s1.ssrc_rx }
    if s2.jbuf then
      let pre : List RecvAction :=
        (if flush then [.jbufFlush] else []) ++ [.jbufPut hdr.seq]
      match jget with
      | none =>
        if ¬ s2.jbuf_started then
          (s2, pre)
        else
          let s3 := { s2 with jbuf_started := true }
          let r := lostcalc s3.pseq zeroHdr.seq
          let s4 := { s3 with pseq := r.1 }
          (s4, pre ++ (if 0 < r.2 then [.handlerLoss hdr.seq] else [])
                   ++ [.handlerDeliver zeroHdr.seq false])
      | some hdr2 =>
          let s3 := { s2 with jbuf_started := true }
          let r := lostcalc s3.pseq hdr2.seq
          let s4 := { s3 with pseq := r.1 }
          (s4, pre ++ (if 0 < r.2 then [.handlerLoss hdr.seq] else [])
                   ++ [.handlerDeliver hdr2.seq true])
    else
      let r := lostcalc s2.pseq hdr.seq
      let s3 := { s2 with pseq := r.1 }
      (s3, (if 0 < r.2 then [.handlerLoss hdr.seq] else [])
             ++ [.handlerDeliver hdr.seq true])

/-- C2: a duplicate (`delta = 0`) or backward-wrap (`delta ≥ 65436`)
sequence number is ignored: the classifier returns a negative code, the
stored sequence number stays as it was, and (on the direct receive path)
no null-payload loss notification is emitted for the packet. -/
theorem rtp_recv_ignore_no_loss_notification (s : StreamSt) (jget : Option RtpHeader)
    (hdr : RtpHeader) (len : Nat)
    (hps : s.pseq < 65536) (hsq : hdr.seq < 65536)
    (hd : delta16 s.pseq hdr.seq = 0 ∨ 65436 ≤ delta16 s.pseq hdr.seq)
    (hj : s.jbuf = false) :
    (lostcalc s.pseq hdr.seq).2 < 0 ∧
    (rtp_recv s jget hdr len).1.pseq = s.pseq ∧
    ∀ q, RecvAction.handlerLoss q ∉ (rtp_recv s jget hdr len).2 := by
  obtain ⟨hkeep, hneg⟩ := lostcalc_ignore s.pseq hdr.seq hps hsq hd
  refine ⟨hneg, ?_, ?_⟩ <;>
  · unfold rtp_recv
    simp only [hj]
    split_ifs <;> simp_all <;> omega

/-- Witness for C2: duplicate packet (`seq = last = 7`) on a receiving
stream without a jitter buffer. -/
theorem rtp_recv_ignore_no_loss_notification_witness :
    (lostcalc 7 7).2 < 0 ∧
    (rtp_recv ⟨⟨3, 3, true, []⟩, none, 5, 7, false, false, -1, ⟨0, 0, 0, 0⟩⟩
       none ⟨5, 7, 0, 0, false⟩ 100).1.pseq = 7 ∧
    ∀ q, RecvAction.handlerLoss q ∉
      (rtp_recv ⟨⟨3, 3, true, []⟩, none, 5, 7, false, false, -1, ⟨0, 0, 0, 0⟩⟩
         none ⟨5, 7, 0, 0, false⟩ 100).2 :=
  rtp_recv_ignore_no_loss_notification
    ⟨⟨3, 3, true, []⟩, none, 5, 7, false, false, -1, ⟨0, 0, 0, 0⟩⟩
    none ⟨5, 7, 0, 0, false⟩ 100 (by decide) (by decide)
    (Or.inl (by decide)) rfl

/-- C10: the jitter-buffer flush on SSRC change fires only when the
previously stored SSRC is nonzero; a stored SSRC of 0 (also the
zero-initialised "never seen" value) never triggers a flush, and a later
SSRC is adopted without flushing; in particular a sender that first uses
SSRC 0 leaves the stored SSRC at 0. -/
theorem rtp_recv_flush_requires_nonzero_prev (s : StreamSt) (jget : Option RtpHeader)
    (hdr : RtpHeader) (len : Nat) :
    (RecvAction.jbufFlush ∈ (rtp_recv s jget hdr len).2 →
       s.ssrc_rx ≠ 0 ∧ hdr.ssrc ≠ s.ssrc_rx) ∧
    (s.ssrc_rx = 0 → RecvAction.jbufFlush ∉ (rtp_recv s jget hdr len).2) ∧
    (s.ssrc_rx = 0 → 0 < len → s.sdp.ldir &&& SDP_RECVONLY ≠ 0 →
       (rtp_recv s jget hdr len).1.ssrc_rx = hdr.ssrc) ∧
    (s.ssrc_rx = 0 → hdr.ssrc = 0 → (rtp_recv s jget hdr len).1.ssrc_rx = 0) := by
  cases jget <;>
    (simp only [rtp_recv]; split_ifs <;> simp_all)

/-- Witness for C10: stored SSRC 0, incoming SSRC 42: the new SSRC is
adopted and no flush is emitted. -/
theorem rtp_recv_flush_requires_nonzero_prev_witness :
    RecvAction.jbufFlush ∉
      (rtp_recv ⟨⟨3, 3, true, []⟩, none, 0, 7, true, false, -1, ⟨0, 0, 0, 0⟩⟩
        none ⟨42, 8, 0, 0, false⟩ 100).2 ∧
    (rtp_recv ⟨⟨3, 3, true, []⟩, none, 0, 7, true, false, -1, ⟨0, 0, 0, 0⟩⟩
        none ⟨42, 8, 0, 0, false⟩ 100).1.ssrc_rx = 42 :=
  ⟨(rtp_recv_flush_requires_nonzero_prev
      ⟨⟨3, 3, true, []⟩, none, 0, 7, true, false, -1, ⟨0, 0, 0, 0⟩⟩
      none ⟨42, 8, 0, 0, false⟩ 100).2.1 rfl,
   (rtp_recv_flush_requires_nonzero_prev
      ⟨⟨3, 3, true, []⟩, none, 0, 7, true, false, -1, ⟨0, 0, 0, 0⟩⟩
      none ⟨42, 8, 0, 0, false⟩ 100).2.2.1 rfl (by decide) (by decide)⟩

/-! Section: RTP keepalive (rtpkeep.c). -/

/-- Function `rtpkeep_refresh` (rtpkeep.c): record the outgoing timestamp and set
the per-period activity flag. -/
def rtpkeep_refresh (rk : Rtpkeep) (ts : Nat) : Rtpkeep :=
  { rk with ts := ts, flag := true }

/-- Observable actions of one keepalive timer expiry, in program order:
re-arming the 15 s timer, consuming (clearing) the activity flag, and one
invocation of `send_keepalive` with the configured method. -/
inductive KAction where
  | rearm
  | clearFlag
  | sendKA (method : String)
deriving Repr, DecidableEq

/-- Function `timeout` (rtpkeep.c): one 15-second timer expiry.  The timer is
re-armed first; then either the activity flag is consumed (and nothing is
sent), or `send_keepalive` is invoked exactly once. -/
def timeout (rk : Rtpkeep) : Rtpkeep × List KAction :=
  if rk.flag then
    ({ rk with flag := false }, [.rearm, .clearFlag])
  else
    (rk, [.rearm, .sendKA rk.method])

theorem foldl_refresh_method (rs : List Nat) (rk : Rtpkeep) :
    (rs.foldl rtpkeep_refresh rk).method = rk.method := by
  induction rs generalizing rk with
  | nil => rfl
  | cons t ts ih => simpa [rtpkeep_refresh] using ih { rk with ts := t, flag := true }

theorem foldl_refresh_flag (rs : List Nat) (rk : Rtpkeep) (h : rs ≠ []) :
    (rs.foldl rtpkeep_refresh rk).flag = true := by
  induction rs generalizing rk with
  | nil => exact absurd rfl h
  | cons t ts ih =>
      cases ts with
      | nil => simp [rtpkeep_refresh]
      | cons u us =>
          have := ih { rk with ts := t, flag := true }
          simpa [rtpkeep_refresh] using this

/-- Number of flag consumptions in an expiry's action trace. -/
def countClear : List KAction → Nat
  | [] => 0
  | .clearFlag :: l => countClear l + 1
  | _ :: l => countClear l

/-- Number of `send_keepalive` invocations in an expiry's action trace. -/
def countSend : List KAction → Nat
  | [] => 0
  | .sendKA _ :: l => countSend l + 1
  | _ :: l => countSend l

/-- C3: starting from a post-expiry state (flag clear), if `rtpkeep_refresh`
ran at least once during the period, the expiry clears the flag and sends
nothing; with zero refreshes it invokes the configured method's send
exactly once; the flag is consumed at most once; and the timer re-arm is
always the first action, before any send. -/
theorem keepalive_period_behaviour (rk : Rtpkeep) (rs : List Nat)
    (hflag : rk.flag = false) :
    ((rs ≠ [] → (timeout (rs.foldl rtpkeep_refresh rk)).2 = [.rearm, .clearFlag] ∧
                (timeout (rs.foldl rtpkeep_refresh rk)).1.flag = false) ∧
     (rs = [] → (timeout (rs.foldl rtpkeep_refresh rk)).2 = [.rearm, .sendKA rk.method])) ∧
    (timeout (rs.foldl rtpkeep_refresh rk)).2.head? = some .rearm ∧
    countClear (timeout (rs.foldl rtpkeep_refresh rk)).2 ≤ 1 ∧
    countSend (timeout (rs.foldl rtpkeep_refresh rk)).2 ≤ 1 := by
  cases rs with
  | nil =>
      have htr : timeout (([] : List Nat).foldl rtpkeep_refresh rk) =
          (rk, [.rearm, .sendKA rk.method]) := by
        simp [timeout, hflag]
      rw [htr]
      exact ⟨⟨fun h => absurd rfl h, fun _ => rfl⟩, rfl, by simp [countClear],
             by simp [countSend]⟩
  | cons t ts =>
      have hf := foldl_refresh_flag (t :: ts) rk (by simp)
      simp only [List.foldl_cons] at hf
      have htr : timeout ((t :: ts).foldl rtpkeep_refresh rk) =
          ({ (t :: ts).foldl rtpkeep_refresh rk with flag := false },
           [.rearm, .clearFlag]) := by
        simp [timeout, hf]
      rw [htr]
      exact ⟨⟨fun _ => ⟨rfl, rfl⟩, fun h => absurd h (by simp)⟩, rfl,
             by simp [countClear], by simp [countSend]⟩

/-- Witness for C3: one refresh in the period suppresses the send; zero
refreshes yield one send with the configured method. -/
theorem keepalive_period_behaviour_witness :
    (timeout ([77].foldl rtpkeep_refresh ⟨"zero", 0, false⟩)).2 = [.rearm, .clearFlag] ∧
    (timeout (([] : List Nat).foldl rtpkeep_refresh ⟨"zero", 0, false⟩)).2 =
      [.rearm, .sendKA "zero"] :=
  ⟨((keepalive_period_behaviour ⟨"zero", 0, false⟩ [77] rfl).1.1 (by simp)).1,
   (keepalive_period_behaviour ⟨"zero", 0, false⟩ [] rfl).1.2 rfl⟩

/-! Section: stream send path (stream.c). -/

/-- An RTP packet as handed to `rtp_send`. -/
structure RtpPacket where
  marker : Bool
  pt : Int
  ts : Nat
  len : Nat
deriving Repr, DecidableEq

/-- Function `stream_send` (stream.c): gate on remote address and negotiated
direction, account tx bytes, fall back to the negotiated encoder payload
type for a negative `pt`, transmit via `rtp_send` only for `pt ≥ 0`,
refresh the keepalive and bump the tx packet counter.  `mbLen` is
`mbuf_get_left(mb)`; the middle component lists the packets handed to
`rtp_send` (modelled as succeeding); the last component is the returned
error code. -/
def stream_send (s : StreamSt) (marker : Bool) (pt : Int) (ts : Nat) (mbLen : Nat) :
    StreamSt × List RtpPacket × Int :=
  if s.sdp.raddr_set = false then (s, [], 0)
  else if s.sdp.dir ≠ SDP_SENDRECV then (s, [], 0)
  else
    let s1 := { s with stats := { s.stats with b_tx := s.stats.b_tx + mbLen } }
    let pt1 := if pt < 0 then s1.pt_enc else pt
    let sent := if 0 ≤ pt1 then [RtpPacket.mk marker pt1 ts mbLen] else []
    let s2 := { s1 with rtpkeep := s1.rtpkeep.map (fun rk => rtpkeep_refresh rk ts) }
    let s3 := { s2 with stats := { s2.stats with n_tx := s2.stats.n_tx + 1 } }
    (s3, sent, 0)

/-- C4: with no remote address, or a negotiated direction other than
sendrecv, `stream_send` returns 0 and transmits nothing. -/
theorem stream_send_gated_noop (s : StreamSt) (marker : Bool) (pt : Int)
    (ts : Nat) (mbLen : Nat)
    (h : s.sdp.raddr_set = false ∨ s.sdp.dir ≠ SDP_SENDRECV) :
    (stream_send s marker pt ts mbLen).2.1 = [] ∧
    (stream_send s marker pt ts mbLen).2.2 = 0 := by
  unfold stream_send
  rcases h with h | h <;> split_ifs <;> simp_all

/-- Witness for C4: a stream held in sendonly direction sends nothing. -/
theorem stream_send_gated_noop_witness :
    (stream_send ⟨⟨3, SDP_SENDONLY, true, []⟩, none, 0, 0, false, false, 0, ⟨0, 0, 0, 0⟩⟩
       false 0 10 42).2.1 = [] ∧
    (stream_send ⟨⟨3, SDP_SENDONLY, true, []⟩, none, 0, 0, false, false, 0, ⟨0, 0, 0, 0⟩⟩
       false 0 10 42).2.2 = 0 :=
  stream_send_gated_noop ⟨⟨3, SDP_SENDONLY, true, []⟩, none, 0, 0, false, false, 0, ⟨0, 0, 0, 0⟩⟩
    false 0 10 42 (Or.inr (by decide))

/-- C9: with a remote address, sendrecv direction, a negative `pt`
argument and no negotiated encoder payload type (`pt_enc = -1`),
`stream_send` returns 0 and transmits no packet, yet still adds `mbLen`
to the tx byte counter, increments the tx packet counter, and refreshes
the keepalive activity flag with the given timestamp. -/
theorem stream_send_no_pt_counts_and_refreshes (s : StreamSt) (rk : Rtpkeep)
    (marker : Bool) (pt : Int) (ts : Nat) (mbLen : Nat)
    (hra : s.sdp.raddr_set = true) (hdir : s.sdp.dir = SDP_SENDRECV)
    (hpt : pt < 0) (henc : s.pt_enc = -1) (hrk : s.rtpkeep = some rk) :
    (stream_send s marker pt ts mbLen).2.1 = [] ∧
    (stream_send s marker pt ts mbLen).2.2 = 0 ∧
    (stream_send s marker pt ts mbLen).1.stats.b_tx = s.stats.b_tx + mbLen ∧
    (stream_send s marker pt ts mbLen).1.stats.n_tx = s.stats.n_tx + 1 ∧
    (stream_send s marker pt ts mbLen).1.rtpkeep =
      some { rk with ts := ts, flag := true } := by
  unfold stream_send
  simp [hra, hdir, hrk, rtpkeep_refresh]
  split_ifs
  simp_all

/-- Witness for C9 on a concrete sendable stream with `pt_enc = -1`. -/
theorem stream_send_no_pt_counts_and_refreshes_witness :
    (stream_send ⟨⟨3, SDP_SENDRECV, true, []⟩, some ⟨"zero", 0, false⟩, 0, 0,
        false, false, -1, ⟨4, 0, 9, 0⟩⟩ false (-1) 480 42).2.1 = [] ∧
    (stream_send ⟨⟨3, SDP_SENDRECV, true, []⟩, some ⟨"zero", 0, false⟩, 0, 0,
        false, false, -1, ⟨4, 0, 9, 0⟩⟩ false (-1) 480 42).2.2 = 0 ∧
    (stream_send ⟨⟨3, SDP_SENDRECV, true, []⟩, some ⟨"zero", 0, false⟩, 0, 0,
        false, false, -1, ⟨4, 0, 9, 0⟩⟩ false (-1) 480 42).1.stats.b_tx = 9 + 42 ∧
    (stream_send ⟨⟨3, SDP_SENDRECV, true, []⟩, some ⟨"zero", 0, false⟩, 0, 0,
        false, false, -1, ⟨4, 0, 9, 0⟩⟩ false (-1) 480 42).1.stats.n_tx = 4 + 1 ∧
    (stream_send ⟨⟨3, SDP_SENDRECV, true, []⟩, some ⟨"zero", 0, false⟩, 0, 0,
        false, false, -1, ⟨4, 0, 9, 0⟩⟩ false (-1) 480 42).1.rtpkeep =
      some { method := "zero", ts := 480, flag := true } :=
  stream_send_no_pt_counts_and_refreshes
    ⟨⟨3, SDP_SENDRECV, true, []⟩, some ⟨"zero", 0, false⟩, 0, 0,
       false, false, -1, ⟨4, 0, 9, 0⟩⟩ ⟨"zero", 0, false⟩
    false (-1) 480 42 rfl rfl (by decide) rfl rfl

/-! Section: keepalive send path (rtpkeep.c). -/

/-- Modelled from the spec: the minimum of the dynamic payload-type range
scanned by `find_unused_pt` ("from its maximum down to its minimum"); the
constant `PT_DYN_MIN` lives in a header outside this tree (the standard
RTP dynamic range starts at 96). -/
def PT_DYN_MIN : Nat := 96

/-- Modelled from the spec: the maximum of the dynamic payload-type range,
`PT_DYN_MAX`, from a header outside this tree (standard value 127). -/
def PT_DYN_MAX : Nat := 127

/-- The countdown loop of `find_unused_pt`: the argument counts how many
payload types at the bottom of the dynamic range are still to be tried,
so `k+1` examines `PT_DYN_MIN + k` before recursing downwards. -/
def find_unused_scan (m : SdpMedia) : Nat → Int
  | 0 => -1
  | k + 1 =>
      if (sdp_media_lformat m (PT_DYN_MIN + k)).isSome then find_unused_scan m k
      else ((PT_DYN_MIN + k : Nat) : Int)

/-- Function `find_unused_pt` (rtpkeep.c): scan the dynamic payload-type range from
`PT_DYN_MAX` down to `PT_DYN_MIN` for a type absent from the negotiated
format table; `-1` if none is free. -/
def find_unused_pt (m : SdpMedia) : Int :=
  find_unused_scan m (PT_DYN_MAX + 1 - PT_DYN_MIN)

/-- Network emissions of `send_keepalive`. -/
inductive KPacket where
  | udpDatagram (len : Nat)
  | stunBinding
  | rtp (p : RtpPacket)
deriving Repr, DecidableEq

/-- ASCII lower-casing of one character, as `tolower` does for the ASCII
method names compared by `str_casecmp`. -/
def lowerChar (c : Char) : Char :=
  if 65 ≤ c.toNat ∧ c.toNat ≤ 90 then Char.ofNat (c.toNat + 32) else c

/-- Case-insensitive string comparison, standing in for `str_casecmp`
returning 0. -/
def strCaseEq (a b : String) : Bool := a.data.map lowerChar == b.data.map lowerChar

/-- The context `send_keepalive` reads besides `struct rtpkeep`: the SDP
media, `config.avt.rtcp_mux` and whether the remote offered the
`rtcp-mux` attribute. -/
structure KeepCtx where
  sdp : SdpMedia
  rtcp_mux_cfg : Bool
  rattr_rtcp_mux : Bool
deriving Repr, DecidableEq

/-- Function `send_keepalive` (rtpkeep.c): emit one keepalive according to the
configured method.  Returns the error code and the packets sent; the
`dyna` method sends an RTP packet with an unused dynamic payload type and
an empty payload, or returns `ENOENT` without sending when the scan finds
none. -/
def send_keepalive (rk : Rtpkeep) (ctx : KeepCtx) : Int × List KPacket :=
  if strCaseEq rk.method "zero" then
    (0, [.udpDatagram 0])
  else if strCaseEq rk.method "stun" then
    (0, [.stunBinding])
  else if strCaseEq rk.method "dyna" then
    let pt := find_unused_pt ctx.sdp
    if pt = -1 then (ENOENT, [])
    else (0, [.rtp ⟨false, pt, rk.ts, 0⟩])
  else if strCaseEq rk.method "rtcp" then
    (0, [])
  else
    (ENOSYS, [])

theorem find_unused_scan_all_used (m : SdpMedia) (k : Nat)
    (h : ∀ i, i < k → (sdp_media_lformat m (PT_DYN_MIN + i)).isSome = true) :
    find_unused_scan m k = -1 := by
  induction k with
  | zero => rfl
  | succ n ih =>
      unfold find_unused_scan
      rw [if_pos (h n (Nat.lt_succ_self n))]
      exact ih (fun i hi => h i (Nat.lt_succ_of_lt hi))

/-- C5: when every dynamic payload type appears in the negotiated format
table, the downward scan finds nothing (`find_unused_pt = -1`) and a
`dyna`-method keepalive period returns `ENOENT` having sent no packet. -/
theorem dyna_keepalive_exhausted_not_found (rk : Rtpkeep) (ctx : KeepCtx)
    (hm : rk.method = "dyna")
    (h : ∀ pt, pt < PT_DYN_MAX + 1 →
           (PT_DYN_MIN ≤ pt → (sdp_media_lformat ctx.sdp pt).isSome = true)) :
    find_unused_pt ctx.sdp = -1 ∧
    send_keepalive rk ctx = (ENOENT, []) := by
  have hscan : find_unused_pt ctx.sdp = -1 := by
    unfold find_unused_pt
    refine find_unused_scan_all_used ctx.sdp _ (fun i hi => ?_)
    refine h (PT_DYN_MIN + i) (by unfold PT_DYN_MIN PT_DYN_MAX at *; omega)
      (Nat.le_add_right _ _)
  refine ⟨hscan, ?_⟩
  unfold send_keepalive
  rw [hm]
  norm_num [strCaseEq, hscan]
  decide

/-- Witness for C5: a media line whose format table holds every dynamic
payload type 96..127. -/
theorem dyna_keepalive_exhausted_not_found_witness :
    find_unused_pt ⟨3, 3, true, (List.range 32).map (fun i => ⟨96 + i, 0, 0⟩)⟩ = -1 ∧
    send_keepalive ⟨"dyna", 7, false⟩ ⟨⟨3, 3, true, (List.range 32).map (fun i => ⟨96 + i, 0, 0⟩)⟩, false, false⟩ =
      (ENOENT, []) :=
  dyna_keepalive_exhausted_not_found ⟨"dyna", 7, false⟩
    ⟨⟨3, 3, true, (List.range 32).map (fun i => ⟨96 + i, 0, 0⟩)⟩, false, false⟩
    rfl (by decide)

/-! Section: audio pipeline (audio.c). -/

/-- Modelled from the spec: the RFC 3389 comfort-noise payload type
`PT_CN`, defined in a header outside this tree (value 13). -/
def PT_CN : Nat := 13

/-- Modelled from the spec: the `PT_NONE` sentinel for "no payload type
negotiated", from a header outside this tree (value 255). -/
def PT_NONE : Nat := 255

/-- A codec instance (`struct aucodec_st`) reduced to the identity it was
built for: codec handle, payload type and format parameters. -/
structure AucodecSt where
  codec : Nat
  pt : Nat
  params : Nat
deriving Repr, DecidableEq

/-- The slice of `struct audio` (audio.c) the verified operations touch. -/
structure Audio where
  strm : StreamSt
  enc : Option AucodecSt
  dec : Option AucodecSt
  pt_tx : Nat
  pt_rx : Nat
  pt_tel_tx : Nat
  pt_tel_rx : Nat
  ts_tx : Nat
  marker : Bool
  is_g722 : Bool
deriving Repr, DecidableEq

/-- Function `calc_nsamp` (audio.c): number of samples for a sample rate, channel
count and packet time. -/
def calc_nsamp (srate : Nat) (channels : Nat) (ptime : Nat) : Nat :=
  srate * channels * ptime / 1000

/-- Function `audio_decoder_set` (audio.c) on the success path: record the receive
payload type and (re)build the decoder instance for the given codec and
parameters (aliasing of a matching encoder instance is invisible at this
level of the model). -/
def audio_decoder_set (a : Audio) (codec : Nat) (pt_rx : Nat) (params : Nat) : Audio :=
  { a with pt_rx := pt_rx, dec := some ⟨codec, pt_rx, params⟩ }

/-- Function `pt_handler` (audio.c): look up the new payload type in the local
format table; rebuild the decoder on a hit, `ENOENT` on a miss. -/
def pt_handler (a : Audio) (pt_new : Nat) : Int × Audio :=
  match sdp_media_lformat a.strm.sdp pt_new with
  | none => (ENOENT, a)
  | some lc => (0, audio_decoder_set a lc.codec lc.pt lc.params)

/-- Observable outcomes of one `stream_recv_handler` dispatch. -/
inductive RxAction where
  | handledTelev
  | droppedCN
  | rebuiltDecoder (pt : Nat)
  | decoded (payload : Bool)
deriving Repr, DecidableEq

/-- Function `stream_recv_handler` (audio.c): dispatch one incoming packet by
payload type — telephone-event, comfort noise, decoder renegotiation on a
changed payload type (dropping the packet when no format matches), then
decode.  `hasMb` is false for the null-payload loss notification. -/
def stream_recv_handler (a : Audio) (hdrPt : Nat) (hasMb : Bool) : Audio × List RxAction :=
  if hasMb = false then (a, [.decoded false])
  else if hdrPt = a.pt_tel_rx then (a, [.handledTelev])
  else if hdrPt = PT_CN then (a, [.droppedCN])
  else if hdrPt ≠ a.pt_rx then
    let r := pt_handler a hdrPt
    if r.1 ≠ 0 then (r.2, [])
    else (r.2, [.rebuiltDecoder hdrPt, .decoded true])
  else (a, [.decoded true])

/-- C6: when a packet's payload type differs from the active decoder's
negotiated type (and is neither the telephone-event nor the comfort-noise
type), a matching local format causes the decoder to be rebuilt for that
format before the packet is decoded, while a missing format drops the
packet without decoding and leaves the audio state unchanged. -/
theorem recv_pt_change_rebuild_or_drop (a : Audio) (hdrPt : Nat)
    (htel : hdrPt ≠ a.pt_tel_rx) (hcn : hdrPt ≠ PT_CN) (hpt : hdrPt ≠ a.pt_rx) :
    (∀ lc, sdp_media_lformat a.strm.sdp hdrPt = some lc →
       (stream_recv_handler a hdrPt true).1.dec = some ⟨lc.codec, lc.pt, lc.params⟩ ∧
       (stream_recv_handler a hdrPt true).1.pt_rx = lc.pt ∧
       (stream_recv_handler a hdrPt true).2 = [.rebuiltDecoder hdrPt, .decoded true]) ∧
    (sdp_media_lformat a.strm.sdp hdrPt = none →
       (stream_recv_handler a hdrPt true).1 = a ∧
       (stream_recv_handler a hdrPt true).2 = []) := by
  constructor
  · intro lc hlc
    unfold stream_recv_handler pt_handler audio_decoder_set
    rw [hlc]
    simp [htel, hcn, hpt, ENOENT]
  · intro hlc
    unfold stream_recv_handler pt_handler
    rw [hlc]
    simp [htel, hcn, hpt, ENOENT]

/-- Witness for C6 at a concrete audio state: payload type 100 has a
matching format, payload type 101 has none. -/
theorem recv_pt_change_rebuild_or_drop_witness :
    ((stream_recv_handler
        ⟨⟨⟨3, 3, true, [⟨100, 6, 2⟩]⟩, none, 0, 0, false, false, -1, ⟨0, 0, 0, 0⟩⟩,
          none, some ⟨5, 0, 0⟩, 255, 0, 255, 255, 160, true, false⟩
        100 true).1.dec = some ⟨6, 100, 2⟩ ∧
     (stream_recv_handler
        ⟨⟨⟨3, 3, true, [⟨100, 6, 2⟩]⟩, none, 0, 0, false, false, -1, ⟨0, 0, 0, 0⟩⟩,
          none, some ⟨5, 0, 0⟩, 255, 0, 255, 255, 160, true, false⟩
        100 true).2 = [.rebuiltDecoder 100, .decoded true]) ∧
    (stream_recv_handler
        ⟨⟨⟨3, 3, true, [⟨100, 6, 2⟩]⟩, none, 0, 0, false, false, -1, ⟨0, 0, 0, 0⟩⟩,
          none, some ⟨5, 0, 0⟩, 255, 0, 255, 255, 160, true, false⟩
        101 true).1 =
      ⟨⟨⟨3, 3, true, [⟨100, 6, 2⟩]⟩, none, 0, 0, false, false, -1, ⟨0, 0, 0, 0⟩⟩,
         none, some ⟨5, 0, 0⟩, 255, 0, 255, 255, 160, true, false⟩ :=
  ⟨⟨((recv_pt_change_rebuild_or_drop
       ⟨⟨⟨3, 3, true, [⟨100, 6, 2⟩]⟩, none, 0, 0, false, false, -1, ⟨0, 0, 0, 0⟩⟩,
         none, some ⟨5, 0, 0⟩, 255, 0, 255, 255, 160, true, false⟩
       100 (by decide) (by decide) (by decide)).1 ⟨100, 6, 2⟩ (by decide)).1,
    ((recv_pt_change_rebuild_or_drop
       ⟨⟨⟨3, 3, true, [⟨100, 6, 2⟩]⟩, none, 0, 0, false, false, -1, ⟨0, 0, 0, 0⟩⟩,
         none, some ⟨5, 0, 0⟩, 255, 0, 255, 255, 160, true, false⟩
       100 (by decide) (by decide) (by decide)).1 ⟨100, 6, 2⟩ (by decide)).2.2⟩,
   ((recv_pt_change_rebuild_or_drop
       ⟨⟨⟨3, 3, true, [⟨100, 6, 2⟩]⟩, none, 0, 0, false, false, -1, ⟨0, 0, 0, 0⟩⟩,
         none, some ⟨5, 0, 0⟩, 255, 0, 255, 255, 160, true, false⟩
       101 (by decide) (by decide) (by decide)).2 (by decide)).1⟩

/-- Function `encode_rtp_send` (audio.c): skip without touching state when no
encoder is set; otherwise run the encoder (outcome modelled by `encErr`
and the produced byte count `encOut`), send via `stream_send` when the
encoded buffer is non-empty, advance the outgoing timestamp by `nsamp` on
success, and clear the marker flag on every exit path past the encoder
check. -/
def encode_rtp_send (a : Audio) (encErr : Bool) (encOut : Nat) (nsamp : Nat) :
    Audio × List RtpPacket :=
  if a.enc.isNone then (a, [])
  else if encErr then ({ a with marker := false }, [])
  else
    let r := if 0 < encOut then
               stream_send a.strm a.marker (a.pt_tx : Int) a.ts_tx encOut
             else (a.strm, [], 0)
    if r.2.2 ≠ 0 then
      ({ a with strm := r.1, marker := false }, r.2.1)
    else
      ({ a with strm := r.1,
                ts_tx := (a.ts_tx + nsamp) % 4294967296,
                marker := false }, r.2.1)

/-- Function `process_audio_encode` (audio.c): compute the sample count of the
frame from the buffer length (`mb->end/4` for G.722, `mb->end/2`
otherwise — 16-bit samples) and encode-and-send. -/
def process_audio_encode (a : Audio) (encErr : Bool) (encOut : Nat) (mbEnd : Nat) :
    Audio × List RtpPacket :=
  encode_rtp_send a encErr encOut (if a.is_g722 then mbEnd / 4 else mbEnd / 2)

/-- One capture-side encode cycle's external inputs: encoder outcome and
produced length, and the PCM buffer length handed in. -/
structure EncCycle where
  encErr : Bool
  encOut : Nat
  mbEnd : Nat
deriving Repr, DecidableEq

/-- A sequence of encode cycles, collecting all transmitted packets. -/
def encode_run (a : Audio) : List EncCycle → Audio × List RtpPacket
  | [] => (a, [])
  | c :: cs =>
      let r := process_audio_encode a c.encErr c.encOut c.mbEnd
      let rest := encode_run r.1 cs
      (rest.1, r.2 ++ rest.2)

/-- The field initialisation `audio_alloc` (audio.c) performs on a
zero-allocated object: payload types `PT_NONE`, initial outgoing
timestamp 160, marker flag true, no codecs yet. -/
def audio_alloc_init (strm : StreamSt) : Audio :=
  { strm := strm, enc := none, dec := none,
    pt_tx := PT_NONE, pt_rx := PT_NONE,
    pt_tel_tx := PT_NONE, pt_tel_rx := PT_NONE,
    ts_tx := 160, marker := true, is_g722 := false }

theorem stream_send_err_zero (s : StreamSt) (marker : Bool) (pt : Int)
    (ts : Nat) (mbLen : Nat) : (stream_send s marker pt ts mbLen).2.2 = 0 := by
  unfold stream_send
  split_ifs <;> rfl

theorem encode_cycle_ts (a : Audio) (encOut mbEnd : Nat)
    (henc : a.enc.isSome) (hg : a.is_g722 = false) :
    (process_audio_encode a false encOut mbEnd).1.ts_tx =
      (a.ts_tx + mbEnd / 2) % 4294967296 ∧
    (process_audio_encode a false encOut mbEnd).1.enc = a.enc ∧
    (process_audio_encode a false encOut mbEnd).1.is_g722 = false := by
  have hN : a.enc.isNone = false := by
    cases h : a.enc <;> simp_all
  have hr : (if 0 < encOut then
               stream_send a.strm a.marker (a.pt_tx : Int) a.ts_tx encOut
             else (a.strm, [], 0)).2.2 = 0 := by
    split_ifs
    · exact stream_send_err_zero a.strm a.marker (a.pt_tx : Int) a.ts_tx encOut
    · rfl
  unfold process_audio_encode encode_rtp_send
  simp only [hN, hg, Bool.false_eq_true, if_false, hr, ne_eq,
             not_true_eq_false, not_false_eq_true]
  simp

theorem encode_cycle_ts_lt (a : Audio) (encOut mbEnd : Nat)
    (henc : a.enc.isSome) (hg : a.is_g722 = false) :
    (process_audio_encode a false encOut mbEnd).1.ts_tx < 4294967296 := by
  have h := (encode_cycle_ts a encOut mbEnd henc hg).1
  rw [h]
  exact Nat.mod_lt _ (by omega)

theorem encode_run_replicate_ts (n : Nat) (a : Audio) (encOut mbEnd : Nat)
    (henc : a.enc.isSome) (hg : a.is_g722 = false) (hts : a.ts_tx < 4294967296) :
    (encode_run a (List.replicate n ⟨false, encOut, mbEnd⟩)).1.ts_tx =
      (a.ts_tx + (mbEnd / 2) * n) % 4294967296 := by
  induction n generalizing a with
  | zero =>
      simp [encode_run, Nat.mod_eq_of_lt hts]
  | succ m ih =>
      obtain ⟨h1, h2, h3⟩ := encode_cycle_ts a encOut mbEnd henc hg
      have henc2 : (process_audio_encode a false encOut mbEnd).1.enc.isSome := by
        rw [h2]; exact henc
      have hlt := encode_cycle_ts_lt a encOut mbEnd henc hg
      have := ih (process_audio_encode a false encOut mbEnd).1 henc2 h3 hlt
      rw [List.replicate_succ]
      show (encode_run (process_audio_encode a false encOut mbEnd).1
              (List.replicate m ⟨false, encOut, mbEnd⟩)).1.ts_tx = _
      rw [this, h1, Nat.mod_add_mod]
      ring_nf

/-- C7: an 8000 Hz mono (non-G.722) codec at ptime 20 ms yields 160-sample
frames (`calc_nsamp`), and 50 successful encode-and-send cycles over such
full frames (320 PCM bytes each) advance the outgoing RTP timestamp by
exactly 8000. -/
theorem audio_8k_ptime20_timestamp_advance (a : Audio) (encOut : Nat)
    (henc : a.enc.isSome) (hg : a.is_g722 = false) (hts : a.ts_tx < 4294967296) :
    calc_nsamp 8000 1 20 = 160 ∧
    (encode_run a (List.replicate 50 ⟨false, encOut, 2 * calc_nsamp 8000 1 20⟩)).1.ts_tx =
      (a.ts_tx + 8000) % 4294967296 := by
  refine ⟨rfl, ?_⟩
  rw [encode_run_replicate_ts 50 a encOut (2 * calc_nsamp 8000 1 20) henc hg hts]
  norm_num [calc_nsamp]

/-- Witness for C7: a fresh audio object with an encoder set starts at
timestamp 160 and ends at 8160 after 50 cycles. -/
theorem audio_8k_ptime20_timestamp_advance_witness :
    calc_nsamp 8000 1 20 = 160 ∧
    (encode_run
       { audio_alloc_init ⟨⟨3, 3, true, []⟩, none, 0, 0, false, false, -1, ⟨0, 0, 0, 0⟩⟩
           with enc := some ⟨1, 0, 0⟩ }
       (List.replicate 50 ⟨false, 33, 2 * calc_nsamp 8000 1 20⟩)).1.ts_tx =
      (160 + 8000) % 4294967296 :=
  audio_8k_ptime20_timestamp_advance
    { audio_alloc_init ⟨⟨3, 3, true, []⟩, none, 0, 0, false, false, -1, ⟨0, 0, 0, 0⟩⟩
        with enc := some ⟨1, 0, 0⟩ }
    33 rfl rfl (by decide)

theorem stream_send_packet_marker (s : StreamSt) (m : Bool) (pt : Int)
    (ts : Nat) (mbLen : Nat) :
    ∀ p ∈ (stream_send s m pt ts mbLen).2.1, p.marker = m := by
  unfold stream_send
  split_ifs <;> simp_all

theorem encode_cycle_marker_facts (a : Audio) (e : Bool) (o n : Nat) :
    (∀ p ∈ (encode_rtp_send a e o n).2, p.marker = a.marker) ∧
    ((encode_rtp_send a e o n).1.marker = false ∨
     (encode_rtp_send a e o n).1.marker = a.marker) ∧
    ((encode_rtp_send a e o n).2 = [] ∨
     ((encode_rtp_send a e o n).2.length = 1 ∧ (encode_rtp_send a e o n).1.marker = false)) := by
  have hsp := stream_send_packet_marker a.strm a.marker (a.pt_tx : Int) a.ts_tx o
  have hlen : (stream_send a.strm a.marker (a.pt_tx : Int) a.ts_tx o).2.1 = [] ∨
      (stream_send a.strm a.marker (a.pt_tx : Int) a.ts_tx o).2.1.length = 1 := by
    unfold stream_send
    simp only []
    split_ifs <;> simp_all
  have hz := stream_send_err_zero a.strm a.marker (a.pt_tx : Int) a.ts_tx o
  unfold encode_rtp_send
  split_ifs <;> simp_all

theorem encode_run_marker_false (cs : List EncCycle) :
    ∀ (a : Audio), a.marker = false → ∀ p ∈ (encode_run a cs).2, p.marker = false := by
  induction cs with
  | nil => intro a hm p hp; simp [encode_run] at hp
  | cons c cs ih =>
      intro a hm p hp
      simp only [encode_run, List.mem_append] at hp
      obtain ⟨h1, h2, _⟩ :=
        encode_cycle_marker_facts a c.encErr c.encOut
          (if a.is_g722 then c.mbEnd / 4 else c.mbEnd / 2)
      rcases hp with hp | hp
      · rw [h1 p hp]; exact hm
      · rcases h2 with h2 | h2
        · exact ih _ h2 p hp
        · exact ih _ (h2.trans hm) p hp

theorem encode_run_tail_marker_false (cs : List EncCycle) :
    ∀ (a : Audio) (p : RtpPacket), p ∈ ((encode_run a cs).2.drop 1) → p.marker = false := by
  induction cs with
  | nil => intro a p hp; simp [encode_run] at hp
  | cons c cs ih =>
      intro a p hp
      simp only [encode_run] at hp
      obtain ⟨_, _, h3⟩ :=
        encode_cycle_marker_facts a c.encErr c.encOut
          (if a.is_g722 then c.mbEnd / 4 else c.mbEnd / 2)
      have h3' : (process_audio_encode a c.encErr c.encOut c.mbEnd).2 = [] ∨
          ((process_audio_encode a c.encErr c.encOut c.mbEnd).2.length = 1 ∧
           (process_audio_encode a c.encErr c.encOut c.mbEnd).1.marker = false) := h3
      rcases h3' with h0 | ⟨h1, hm⟩
      · rw [h0, List.nil_append] at hp
        exact ih _ p hp
      · obtain ⟨q, hq⟩ := List.length_eq_one.mp h1
        rw [hq, List.cons_append, List.drop_one, List.tail_cons] at hp
        exact encode_run_marker_false cs _ hm p hp

/-- C8: the marker flag starts true at allocation (`audio_alloc`), and in
any sequence of encode cycles every transmitted packet after the first
carries marker false — the marker bit can be true only on the stream's
very first audio packet. -/
theorem audio_marker_true_only_first (strm : StreamSt) :
    (audio_alloc_init strm).marker = true ∧
    ∀ (a : Audio) (cs : List EncCycle) (p : RtpPacket),
      p ∈ ((encode_run a cs).2.drop 1) → p.marker = false :=
  ⟨rfl, fun a cs p hp => encode_run_tail_marker_false cs a p hp⟩

/-- Witness for C8: a two-cycle run from a freshly allocated audio object
emits a second packet, and it carries marker false. -/
theorem audio_marker_true_only_first_witness :
    RtpPacket.mk false 0 320 10 ∈
      ((encode_run
          { audio_alloc_init ⟨⟨3, 3, true, []⟩, none, 0, 0, false, false, -1, ⟨0, 0, 0, 0⟩⟩
              with enc := some ⟨1, 0, 0⟩, pt_tx := 0 }
          (List.replicate 2 ⟨false, 10, 320⟩)).2.drop 1) ∧
    (RtpPacket.mk false 0 320 10).marker = false :=
  ⟨by decide,
   (audio_marker_true_only_first
      ⟨⟨3, 3, true, []⟩, none, 0, 0, false, false, -1, ⟨0, 0, 0, 0⟩⟩).2
     { audio_alloc_init ⟨⟨3, 3, true, []⟩, none, 0, 0, false, false, -1, ⟨0, 0, 0, 0⟩⟩
         with enc := some ⟨1, 0, 0⟩, pt_tx := 0 }
     (List.replicate 2 ⟨false, 10, 320⟩) (RtpPacket.mk false 0 320 10) (by decide)⟩

end Baresip
